import Mathlib

/-!
# Verification of the DafnyBench2C batch-conversion core

A shallow embedding, in Lean 4, of the batch ledger (`src/utils/batch_manager.py`),
the heuristic scoring engine (`src/core/validators/heuristic_validator.py`),
the GCC tester boundary (`src/core/testers/gcc_tester.py`) and the pipeline
orchestrator (`src/core/services/conversion_service.py`), together with proofs
and refutations of the specified properties.

Modelling conventions:
* Python `float` scores are modelled as `ℚ` (the spec tolerates ±1e-9 and every
  claim is about exact thresholds / bounds far from rounding error).
* Python `str` is modelled as Lean `String`; filesystem paths are plain strings.
* Python `None`-able fields are modelled as `Option`.
* Python exceptions are modelled as values of `PyExc` and fallible calls as
  `Except PyExc α`; `datetime.now()` is threaded as an explicit `now : String`.
* The regex scans of the heuristic validator are embedded as deterministic
  character-level scanners that reproduce `re.findall` semantics (leftmost,
  non-overlapping, with the backtracking behaviour of the concrete patterns).
-/

namespace DafnyBench2C

/-! ## Batch ledger data model (`batch_manager.py`, `BatchItem`) -/

/-- `BatchItem` dataclass: one unit of conversion work
(`batch_manager.py` lines 15-28).  Field order matches the dataclass, so the
`asdict` serialization below lists keys in the same order as Python. -/
structure BatchItem where
  input_file : String
  output_dir : String
  status : String := "pending"
  conversion_score : Option ℚ := none
  validation_score : Option ℚ := none
  test_success : Option Bool := none
  error_message : Option String := none
  start_time : Option String := none
  end_time : Option String := none
  retry_count : ℕ := 0
  notes : String := ""
  deriving Repr, DecidableEq

/-! ## JSON values (the persisted progress document) -/

/-- JSON values as produced by Python's `json.dump`/`json.load`.  Python
serializes `int` and `float` distinctly and `json.load` reconstructs them
exactly (shortest-round-trip float repr), so numbers are exact here. -/
inductive Json where
  | null : Json
  | bool (b : Bool) : Json
  | str (s : String) : Json
  | int (n : ℤ) : Json
  | num (q : ℚ) : Json
  | arr (elems : List Json) : Json
  | obj (fields : List (String × Json)) : Json

/-- Look a key up in a JSON object's field list (Python `dict` access;
`json.load` preserves insertion order, `asdict` emits field order). -/
def jlookup (key : String) : List (String × Json) → Option Json
  | [] => none
  | (k, v) :: rest => if k = key then some v else jlookup key rest

/-- `asdict(item)` (`save_progress`, line 228): every field of the dataclass,
in declaration order. -/
def BatchItem.toJson (it : BatchItem) : Json :=
  .obj [ ("input_file", .str it.input_file)
       , ("output_dir", .str it.output_dir)
       , ("status", .str it.status)
       , ("conversion_score", match it.conversion_score with
           | some q => .num q | none => .null)
       , ("validation_score", match it.validation_score with
           | some q => .num q | none => .null)
       , ("test_success", match it.test_success with
           | some b => .bool b | none => .null)
       , ("error_message", match it.error_message with
           | some s => .str s | none => .null)
       , ("start_time", match it.start_time with
           | some s => .str s | none => .null)
       , ("end_time", match it.end_time with
           | some s => .str s | none => .null)
       , ("retry_count", .int it.retry_count)
       , ("notes", .str it.notes) ]

def Json.asStr : Json → Option String
  | .str s => some s
  | _ => none

def Json.asOptNum : Json → Option (Option ℚ)
  | .null => some none
  | .num q => some (some q)
  | _ => none

def Json.asOptBool : Json → Option (Option Bool)
  | .null => some none
  | .bool b => some (some b)
  | _ => none

def Json.asOptStr : Json → Option (Option String)
  | .null => some none
  | .str s => some (some s)
  | _ => none

def Json.asNat : Json → Option ℕ
  | .int n => n.toNat'
  | _ => none

/-- Fetch field `key` from a JSON object's fields and coerce it with `f`. -/
def getField (fields : List (String × Json)) (key : String)
    (f : Json → Option α) : Option α :=
  (jlookup key fields).bind f

/-- `BatchItem(**item_data)` (`load_progress`, line 251): rebuild a dataclass
instance from the parsed JSON dict, by keyword. -/
def BatchItem.fromJson : Json → Option BatchItem
  | .obj fields =>
      (getField fields "input_file" Json.asStr).bind fun inf =>
      (getField fields "output_dir" Json.asStr).bind fun od =>
      (getField fields "status" Json.asStr).bind fun st =>
      (getField fields "conversion_score" Json.asOptNum).bind fun cs =>
      (getField fields "validation_score" Json.asOptNum).bind fun vs =>
      (getField fields "test_success" Json.asOptBool).bind fun ts =>
      (getField fields "error_message" Json.asOptStr).bind fun em =>
      (getField fields "start_time" Json.asOptStr).bind fun sta =>
      (getField fields "end_time" Json.asOptStr).bind fun en =>
      (getField fields "retry_count" Json.asNat).bind fun rc =>
      (getField fields "notes" Json.asStr).bind fun nts =>
      some { input_file := inf, output_dir := od, status := st,
             conversion_score := cs, validation_score := vs,
             test_success := ts, error_message := em,
             start_time := sta, end_time := en,
             retry_count := rc, notes := nts }
  | _ => none

/-- The progress document written by `save_progress` (lines 225-229):
`{"batch_name": ..., "last_updated": ..., "items": [asdict(item), ...]}`. -/
def progressDoc (batch_name last_updated : String) (items : List BatchItem) : Json :=
  .obj [ ("batch_name", .str batch_name)
       , ("last_updated", .str last_updated)
       , ("items", .arr (items.map BatchItem.toJson)) ]

/-! ## The `BatchManager` state and its operations

The manager's observable state: the batch name, the output directory, the
in-memory `items` list, the derived `completed_files` set, and the content of
the persisted progress file (`None` = file absent).  `datetime.now()` is
threaded as an explicit `now : String` argument. -/

structure BatchManager where
  batch_name : String
  output_dir : String
  items : List BatchItem
  completed_files : Finset String
  progress_file : Option Json

namespace BatchManager

/-- `save_progress` (lines 222-242): rewrite the whole progress file with the
current item sequence.  (The CSV summary written alongside carries no state the
ledger reads back and is not modelled.) -/
def save_progress (now : String) (bm : BatchManager) : BatchManager :=
  { bm with progress_file := some (progressDoc bm.batch_name now bm.items) }

/-- Parse the item list out of a progress document
(`load_progress` lines 249-251: `progress_data.get('items', [])` then
`BatchItem(**item_data)` per element). -/
def parseItemList : List Json → Option (List BatchItem)
  | [] => some []
  | j :: rest =>
      (BatchItem.fromJson j).bind fun it =>
      (parseItemList rest).map fun tl => it :: tl

def parseItems (j : Json) : Option (List BatchItem) :=
  match j with
  | .obj fields =>
      match jlookup "items" fields with
      | some (.arr l) => parseItemList l
      | some _ => none
      | none => some []
  | _ => none

/-- `load_progress` (lines 244-260): if the file exists, parse it and derive
the completed index; any parse failure is caught and yields a fresh state
(`except` branch, lines 255-258); a missing file also yields a fresh state. -/
def load_progress (doc : Option Json) : List BatchItem × Finset String :=
  match doc with
  | none => ([], ∅)
  | some j =>
      match parseItems j with
      | some its =>
          (its, ((its.filter (fun it => it.status = "completed")).map
                   (fun it => it.input_file)).toFinset)
      | none => ([], ∅)

/-- Construction (lines 33-53): record name and directory, then
`load_progress` from whatever is on disk. -/
def init (batch_name output_dir : String) (disk : Option Json) : BatchManager :=
  let loaded := load_progress disk
  { batch_name := batch_name, output_dir := output_dir,
    items := loaded.1, completed_files := loaded.2, progress_file := disk }

/-- `Path.stem`: final path component without its last suffix
(a leading dot alone does not start a suffix). -/
def stem (path : String) : String :=
  let name := (path.splitOn "/").getLastD ""
  match (name.toList.reverse.takeWhile (fun c => c ≠ '.')).reverse with
  | [] => name
  | ext =>
      if ext.length + 1 < name.length ∨ ext.length = name.length then
        if ext.length = name.length then name
        else String.mk (name.toList.take (name.length - ext.length - 1))
      else name

/-- `get_output_path_for_file` (lines 55-63): sanitize the stem, truncate long
names, and place the result under `<output_dir>/converted`. -/
def get_output_path_for_file (bm : BatchManager) (input_file : String) : String :=
  let safe_name := ((stem input_file).replace "_tmp_tmp" "_").replace "tmp_" ""
  let safe_name := if safe_name.length > 50
    then String.mk (safe_name.toList.take 47) ++ "..." else safe_name
  bm.output_dir ++ "/converted/" ++ safe_name

/-- `add_files` (lines 65-85): for every input file append a fresh
`BatchItem`, marked `"completed"` when the path is in the completed index and
`"pending"` otherwise, then save.  The append is unconditional: nothing checks
whether the path is already among `items`. -/
def add_files (now : String) (input_files : List String) (bm : BatchManager) :
    BatchManager :=
  let newItems := input_files.map fun f =>
    { input_file := f
      output_dir := bm.get_output_path_for_file f
      status := if f ∈ bm.completed_files then "completed" else "pending"
      : BatchItem }
  save_progress now { bm with items := bm.items ++ newItems }

/-- The `for item in self.items: if item.input_file == input_file: ...; break`
loop shared by the four `mark_*` operations: update the first item whose
`input_file` matches, report whether one matched. -/
def markLoop (input_file : String) (upd : BatchItem → BatchItem) :
    List BatchItem → List BatchItem × Bool
  | [] => ([], false)
  | it :: rest =>
      if it.input_file = input_file then (upd it :: rest, true)
      else
        let r := markLoop input_file upd rest
        (it :: r.1, r.2)

/-- `mark_running` (lines 99-106). -/
def mark_running (input_file now : String) (bm : BatchManager) : BatchManager :=
  let r := markLoop input_file
    (fun it => { it with status := "running", start_time := some now }) bm.items
  save_progress now { bm with items := r.1 }

/-- `mark_completed` (lines 108-123); the insertion into `completed_files`
happens inside the matched loop iteration, hence only when a match was found. -/
def mark_completed (input_file : String) (conversion_score validation_score : ℚ)
    (test_success : Bool) (error_message : Option String) (notes : String)
    (now : String) (bm : BatchManager) : BatchManager :=
  let r := markLoop input_file
    (fun it => { it with
        status := "completed",
        conversion_score := some conversion_score,
        validation_score := some validation_score,
        test_success := some test_success,
        error_message := error_message,
        notes := notes,
        end_time := some now }) bm.items
  save_progress now { bm with
    items := r.1,
    completed_files :=
      if r.2 then insert input_file bm.completed_files else bm.completed_files }

/-- `mark_failed` (lines 125-135): also increments `retry_count`. -/
def mark_failed (input_file error_message notes now : String)
    (bm : BatchManager) : BatchManager :=
  let r := markLoop input_file
    (fun it => { it with
        status := "failed",
        error_message := some error_message,
        notes := notes,
        end_time := some now,
        retry_count := it.retry_count + 1 }) bm.items
  save_progress now { bm with items := r.1 }

/-- `mark_skipped` (lines 137-145). -/
def mark_skipped (input_file reason now : String) (bm : BatchManager) :
    BatchManager :=
  let r := markLoop input_file
    (fun it => { it with
        status := "skipped",
        notes := reason,
        end_time := some now }) bm.items
  save_progress now { bm with items := r.1 }

/-- The body of the `reset_failed_files` loop (lines 149-155): a `"failed"`
item returns to `"pending"` with error, notes and both timestamps cleared
(`retry_count` is left alone); any other item is untouched. -/
def resetItem (it : BatchItem) : BatchItem :=
  if it.status = "failed" then
    { it with status := "pending",
              error_message := none,
              notes := "",
              start_time := none,
              end_time := none }
  else it

/-- `reset_failed_files` (lines 147-157). -/
def reset_failed_files (now : String) (bm : BatchManager) : BatchManager :=
  save_progress now { bm with items := bm.items.map resetItem }

end BatchManager

/-! ## Regex scanners of the heuristic validator

`heuristic_validator.py` extracts evidence with `re.findall` over five fixed
patterns.  Each pattern is embedded as a deterministic character-level scanner
with Python's `findall` semantics: scan left to right, at each position try
the pattern, on success emit the match (or its group) and resume after the
matched extent, otherwise advance one character.  For these particular
patterns the backtracking engine's choice of extent is unique, which the
comments on each matcher justify. -/

/-- Python `\s` (ASCII range, the inputs are program text). -/
def pyIsSpace (c : Char) : Bool :=
  c = ' ' || c = '\t' || c = '\n' || c = '\r' || c = '\x0b' || c = '\x0c'

/-- Python `\w` (ASCII range). -/
def pyIsWord (c : Char) : Bool :=
  c.isAlpha || c.isDigit || c = '_'

/-- Index of the first character satisfying `p`, if any. -/
def firstIdxWhere (p : Char → Bool) : List Char → Option ℕ
  | [] => none
  | c :: rest =>
      if p c then some 0 else (firstIdxWhere p rest).map (· + 1)

/-- Index of the first occurrence of `pat` as a contiguous sublist, if any. -/
def findSubIdx (pat : List Char) : List Char → Option ℕ
  | [] => if pat.isEmpty then some 0 else none
  | cs@(_ :: rest) =>
      if pat.isPrefixOf cs then some 0 else (findSubIdx pat rest).map (· + 1)

/-- Try pattern `<kw>\s+[^;]+;` at the head of `cs`; on success return the
length of the matched extent.  After the keyword, the regex needs a nonempty
whitespace run, then a nonempty run of non-`;` characters, then `;`.  With
backtracking this succeeds iff the next character is whitespace and the first
`;` after the keyword sits at offset ≥ 2 (take one whitespace character for
`\s+`, the rest — necessarily free of `;` — for `[^;]+`); the greedy `[^;]+`
always ends at that first `;`. -/
def tryContractAt (kw : List Char) (cs : List Char) : Option ℕ :=
  if kw.isPrefixOf cs then
    match cs.drop kw.length with
    | [] => none
    | r@(c0 :: _) =>
        if pyIsSpace c0 then
          match firstIdxWhere (fun c => c = ';') r with
          | some p => if 2 ≤ p then some (kw.length + p + 1) else none
          | none => none
        else none
  else none

def countContractAux (kw : List Char) : ℕ → List Char → ℕ
  | 0, _ => 0
  | _, [] => 0
  | fuel + 1, cs@(_ :: rest) =>
      match tryContractAt kw cs with
      | some len => 1 + countContractAux kw fuel (cs.drop len)
      | none => countContractAux kw fuel rest

/-- `len(re.findall(r'requires\s+[^;]+;', code))`
(`_check_acsl_annotations_detailed`, lines 361 and 383). -/
def countRequires (code : String) : ℕ :=
  countContractAux "requires".toList code.toList.length code.toList

/-- `len(re.findall(r'ensures\s+[^;]+;', code))` (lines 362 and 384). -/
def countEnsures (code : String) : ℕ :=
  countContractAux "ensures".toList code.toList.length code.toList

/-- Try pattern `/\*@.*?\*/` (DOTALL) at the head of `cs`: literal `/*@`,
then the lazy `.*?` stretches exactly to the first later `*/`. -/
def tryAcslAt (cs : List Char) : Option ℕ :=
  if "/*@".toList.isPrefixOf cs then
    match findSubIdx "*/".toList (cs.drop 3) with
    | some q => some (3 + q + 2)
    | none => none
  else none

def countAcslAux : ℕ → List Char → ℕ
  | 0, _ => 0
  | _, [] => 0
  | fuel + 1, cs@(_ :: rest) =>
      match tryAcslAt cs with
      | some len => 1 + countAcslAux fuel (cs.drop len)
      | none => countAcslAux fuel rest

/-- `len(re.findall(r'/\*@.*?\*/', c_code, re.DOTALL))` (line 357). -/
def countAcslBlocks (c_code : String) : ℕ :=
  countAcslAux c_code.toList.length c_code.toList

/-- Try pattern `method\s+(\w+)\s*\([^)]*\)` at the head of `cs`; on success
return the matched extent's length and the captured group.  The `\s`/`\w`
classes are disjoint and `\w`/`(` as well, so each greedy run is forced to be
the maximal one and the greedy `[^)]*` ends at the first `)`. -/
def tryMethodAt (cs : List Char) : Option (ℕ × List Char) :=
  if "method".toList.isPrefixOf cs then
    let r := cs.drop 6
    let a := (r.takeWhile pyIsSpace).length
    if a = 0 then none else
    let r1 := r.drop a
    let name := r1.takeWhile pyIsWord
    let b := name.length
    if b = 0 then none else
    let r2 := r1.drop b
    let c := (r2.takeWhile pyIsSpace).length
    match r2.drop c with
    | '(' :: r4 =>
        match firstIdxWhere (fun ch => ch = ')') r4 with
        | some p => some (6 + a + b + c + 1 + p + 1, name)
        | none => none
    | _ => none
  else none

def dafnyMethodsAux : ℕ → List Char → List (List Char)
  | 0, _ => []
  | _, [] => []
  | fuel + 1, cs@(_ :: rest) =>
      match tryMethodAt cs with
      | some (len, name) => name :: dafnyMethodsAux fuel (cs.drop len)
      | none => dafnyMethodsAux fuel rest

/-- `re.findall(r'method\s+(\w+)\s*\([^)]*\)', dafny_code)` (line 315). -/
def dafnyMethodNames (dafny_code : String) : List String :=
  (dafnyMethodsAux dafny_code.toList.length dafny_code.toList).map
    fun l => String.mk l

/-- Try pattern `\w+\s+(\w+)\s*\([^)]*\)\s*{` at the head of `cs`; on success
return the matched extent's length and the captured group (the C function
name).  As in `tryMethodAt` every greedy run is forced, and the final `\s*`
before `{` is forced as well since `\s` and `{` are disjoint. -/
def tryCFunAt (cs : List Char) : Option (ℕ × List Char) :=
  let a := (cs.takeWhile pyIsWord).length
  if a = 0 then none else
  let r1 := cs.drop a
  let b := (r1.takeWhile pyIsSpace).length
  if b = 0 then none else
  let r2 := r1.drop b
  let name := r2.takeWhile pyIsWord
  let c := name.length
  if c = 0 then none else
  let r3 := r2.drop c
  let d := (r3.takeWhile pyIsSpace).length
  match r3.drop d with
  | '(' :: r5 =>
      match firstIdxWhere (fun ch => ch = ')') r5 with
      | some p =>
          let r6 := r5.drop (p + 1)
          let e := (r6.takeWhile pyIsSpace).length
          match r6.drop e with
          | '{' :: _ => some (a + b + c + d + 1 + p + 1 + e + 1, name)
          | _ => none
      | none => none
  | _ => none

def cFunctionsAux : ℕ → List Char → List (List Char)
  | 0, _ => []
  | _, [] => []
  | fuel + 1, cs@(_ :: rest) =>
      match tryCFunAt cs with
      | some (len, name) => name :: cFunctionsAux fuel (cs.drop len)
      | none => cFunctionsAux fuel rest

/-- `re.findall(r'\w+\s+(\w+)\s*\([^)]*\)\s*{', c_code)` (line 316). -/
def cFunctionNames (c_code : String) : List String :=
  (cFunctionsAux c_code.toList.length c_code.toList).map fun l => String.mk l

/-! ## Heuristic validator scores (`heuristic_validator.py`) -/

/-- `TestConfig.validation_rules` (`config/models.py` lines 94-100): the three
criterion weights, 0.25 / 0.35 / 0.40. -/
structure TestConfig where
  function_signatures : ℚ := 1/4
  acsl_annotations : ℚ := 7/20
  tests_passed : ℚ := 2/5

/-- `_check_function_signatures_detailed` (lines 313-352), score component
(the human-readable reasons dict carries no further state and is omitted):
0.0 when the Dafny side declares no methods, 0.0 when the C side has no
function definitions, otherwise the fraction of Dafny method names that recur
among the C function names. -/
def check_function_signatures_detailed (dafny_code c_code : String) : ℚ :=
  let dafny_methods := dafnyMethodNames dafny_code
  let c_functions := cFunctionNames c_code
  if dafny_methods.isEmpty then 0
  else if c_functions.isEmpty then 0
  else
    let preserved_count := dafny_methods.countP (fun m => decide (m ∈ c_functions))
    (preserved_count : ℚ) / (dafny_methods.length : ℚ)

/-- `_check_acsl_annotations_detailed` (lines 354-421), score component.
Counts `requires`/`ensures` clauses on both sides and ACSL blocks on the C
side; note the per-kind ratios `c_requires / dafny_requires` and
`c_ensures / dafny_ensures` (lines 387-388) carry no `min(..., 1.0)` clamp —
the only clamp is the one fused with the `+0.1` ACSL-presence bonus
(line 417). -/
def check_acsl_annotations_detailed (dafny_code c_code : String) : ℚ :=
  let c_acsl_count := countAcslBlocks c_code
  let dafny_requires := countRequires dafny_code
  let dafny_ensures := countEnsures dafny_code
  let dafny_contracts := dafny_requires + dafny_ensures
  if dafny_contracts = 0 then
    if c_acsl_count = 0 then 1 else 4/5
  else
    let c_requires := countRequires c_code
    let c_ensures := countEnsures c_code
    let requires_ratio : ℚ :=
      if dafny_requires > 0 then (c_requires : ℚ) / (dafny_requires : ℚ) else 1
    let ensures_ratio : ℚ :=
      if dafny_ensures > 0 then (c_ensures : ℚ) / (dafny_ensures : ℚ) else 1
    let conversion_ratio : ℚ :=
      if dafny_requires > 0 ∧ dafny_ensures > 0 then
        (requires_ratio + ensures_ratio) / 2
      else if dafny_requires > 0 then requires_ratio
      else if dafny_ensures > 0 then ensures_ratio
      else 1
    if c_acsl_count > 0 then min (conversion_ratio + 1/10) 1
    else conversion_ratio

/-- `ValidationResult` (`interfaces/validator.py`): the fields the scoring
claims are about (the `details` justification strings and `metadata` echo the
numbers above and are omitted). -/
structure ValidationResult where
  is_valid : Bool
  score : ℚ
  issues : List String
  deriving Repr, DecidableEq

/-- `HeuristicValidator.validate_conversion` (lines 20-83): the weighted sum
of the three sub-scores (`score += sub * weight` per criterion, starting from
0.0), acceptability at the fixed `score > 0.5` threshold (line 68), and the
issue list that is nonempty exactly when the threshold is missed (line 70). -/
def validate_conversion (cfg : TestConfig) (dafny_code c_code : String)
    (test_score : ℚ) : ValidationResult :=
  let sig_score := check_function_signatures_detailed dafny_code c_code
  let acsl_score := check_acsl_annotations_detailed dafny_code c_code
  let score := 0 + sig_score * cfg.function_signatures
      + acsl_score * cfg.acsl_annotations
      + test_score * cfg.tests_passed
  { is_valid := decide (score > 1/2)
    score := score
    issues := if score > 1/2 then [] else ["Validation score too low"] }

/-! ## GCC tester boundary (`gcc_tester.py`) -/

/-- `TestResult` (`interfaces/tester.py`): the fields the pipeline reads
(`test_results`, `csv_file` and `metadata` are analysis by-products the
claims never touch). -/
structure TestResult where
  success : Bool
  compiles : Bool
  runs : Bool
  output : Option String := none
  error : Option String := none
  deriving Repr, DecidableEq

/-- The dict `_compile_c_file` returns (lines 191-218): `{'success': True}`,
or `{'success': False, 'error': msg}` where `msg` is gcc's stripped stderr,
the string "Compilation timeout after N seconds", or
"Compilation error: ..." for an unexpected exception. -/
structure CompileOutcome where
  success : Bool
  error : Option String := none
  deriving Repr, DecidableEq

/-- The dict `_execute_program` returns (lines 220-263). -/
structure ExecOutcome where
  success : Bool
  output : String := ""
  error : Option String := none
  deriving Repr, DecidableEq

namespace GCCTester

/-- `GCCTester.compile_and_test` (lines 29-93) as a function of the two
subprocess outcomes: a compile failure returns early with
`success=False, compiles=False, runs=False` and the compile error; otherwise
the execution outcome decides `success`/`runs` with `compiles=True`. -/
def compile_and_test (comp : CompileOutcome) (ex : ExecOutcome) : TestResult :=
  if ¬comp.success then
    { success := false, compiles := false, runs := false, error := comp.error }
  else
    { success := ex.success, compiles := true, runs := ex.success,
      output := some ex.output, error := ex.error }

end GCCTester

/-! ## Pipeline orchestrator (`conversion_service.py`) -/

/-- A Python exception at the orchestrator boundary: its class name
(`type(e).__name__`) and its message (`str(e)`). -/
structure PyExc where
  type_name : String
  msg : String
  deriving Repr, DecidableEq

/-- `ConversionResult` (`interfaces/converter.py`), minus the free-form
`metadata` dict. -/
structure ConversionResult where
  success : Bool
  c_code : Option String := none
  test_code : Option String := none
  error_message : Option String := none
  deriving Repr, DecidableEq

/-- `ConversionPipelineResult` (`interfaces/results.py`); `metadata` is the
string-keyed dict built at lines 114-118 (default `{}` via `__post_init__`). -/
structure ConversionPipelineResult where
  conversion : ConversionResult
  validation : Option ValidationResult := none
  testing : Option TestResult := none
  metadata : List (String × Option String) := []
  deriving Repr, DecidableEq

/-- The two `ConverterConfig` switches `convert_single_file` consults
(`config/models.py` lines 70-76). -/
structure ConverterConfig where
  enable_validation : Bool := true
  enable_test_generation : Bool := true
  deriving Repr, DecidableEq

/-- Python truthiness of an optional string (`None` and `""` are falsy). -/
def truthyStr : Option String → Bool
  | some s => !(s == "")
  | none => false

/-- Lowercase a string (`str.lower`, ASCII range). -/
def pyLower (s : String) : String :=
  String.mk (s.toList.map Char.toLower)

/-- Python `needle in hay` on strings. -/
def containsSubstr (hay needle : String) : Bool :=
  (findSubIdx needle.toList hay.toList).isSome

/-- The condition of line 84:
`test_result.error and "compilation" in test_result.error.lower()`. -/
def compilationSniff : Option String → Bool
  | some e => !(e == "") && containsSubstr (pyLower e) "compilation"
  | none => false

/-- The test-score mapping of `convert_single_file` lines 81-87: success is
1.0; a failure whose (truthy) error text mentions "compilation" is 0.0;
every other outcome is 0.5. -/
def test_score_of (test_result : TestResult) : ℚ :=
  if test_result.success then 1
  else if compilationSniff test_result.error then 0
  else 1/2

/-- One invocation's external world: the value (or exception) each
collaborator call and filesystem access inside `convert_single_file` would
produce.  `read_c_file` is what `open(c_file).read()` at lines 93-95 yields —
the persisted artifact's content at scoring time, which need not match the
in-memory `conversion_result.c_code`. -/
structure PipelineWorld where
  convert_file : Except PyExc ConversionResult
  write_test_file : Except PyExc Unit
  compile_and_test : Except PyExc TestResult
  read_c_file : Except PyExc String
  read_dafny_file : Except PyExc String
  save_single_result : Except PyExc Unit

/-- The `try` body of `convert_single_file` (lines 57-130).  Stage 1 returns
early on an unsuccessful conversion.  Stage 2 runs only when test generation
is enabled and `conversion_result.test_code` is truthy; it writes the test
file and maps the tester's result through `test_score_of`.  Stage 3 runs only
when validation is enabled: it reads the persisted C file into a local that
is then never used (line 94 binds `c_code`, line 103 passes
`conversion_result.c_code`), reads the Dafny source, and calls the validator
on the in-memory C code. -/
def pipelineBody (cfg : ConverterConfig) (save_results : Bool)
    (vcfg : TestConfig) (dafny_file output_dir : String)
    (test_dir : Option String) (w : PipelineWorld) :
    Except PyExc ConversionPipelineResult :=
  w.convert_file.bind fun conversion_result =>
  if ¬conversion_result.success then
    .ok { conversion := conversion_result }
  else
    let runTests := cfg.enable_test_generation && truthyStr conversion_result.test_code
    (if runTests then
        w.write_test_file.bind fun _ =>
        w.compile_and_test.map fun test_result =>
          (some test_result, test_score_of test_result)
      else .ok (none, (0 : ℚ))).bind fun stage2 =>
    (if cfg.enable_validation then
        w.read_c_file.bind fun _c_code_from_disk =>
        w.read_dafny_file.map fun dafny_code =>
          some (validate_conversion vcfg dafny_code
                  (conversion_result.c_code.getD "") stage2.2)
      else .ok none).bind fun validation_result =>
    let result : ConversionPipelineResult :=
      { conversion := conversion_result
        validation := validation_result
        testing := stage2.1
        metadata := [ ("input_file", some dafny_file)
                    , ("output_dir", some output_dir)
                    , ("test_dir",
                        if runTests then some (test_dir.getD output_dir)
                        else test_dir) ] }
    (if save_results then w.save_single_result else .ok ()).bind fun _ =>
    .ok result

/-- `ConversionService.convert_single_file` (lines 49-139): the `try` body,
with the `except Exception` boundary of lines 132-139 mapping any raised
exception to a failed outcome whose `error_message` is `str(e)`. -/
def convert_single_file (cfg : ConverterConfig) (save_results : Bool)
    (vcfg : TestConfig) (dafny_file output_dir : String)
    (test_dir : Option String) (w : PipelineWorld) : ConversionPipelineResult :=
  match pipelineBody cfg save_results vcfg dafny_file output_dir test_dir w with
  | .ok r => r
  | .error e => { conversion := { success := false, error_message := some e.msg } }

/-! ## Concrete instances used when instantiating the theorems below -/

/-- A ledger as `load_progress` restores it after a completed run: one item
for `/data/a.src`, marked completed with validation score 0.9, and the
derived completed index containing its path. -/
def bmResumed : BatchManager :=
  { batch_name := "batch_001"
    output_dir := "/out"
    items := [ { input_file := "/data/a.src"
                 output_dir := "/out/converted/a"
                 status := "completed"
                 conversion_score := some 1
                 validation_score := some (9/10)
                 test_success := some true
                 notes := "ok" } ]
    completed_files := {"/data/a.src"}
    progress_file := none }

/-- A small ledger with one failed and one completed item. -/
def bmMixed : BatchManager :=
  { batch_name := "b"
    output_dir := "/o"
    items := [ { input_file := "/d/f.dfy", output_dir := "/o/converted/f",
                 status := "failed",
                 error_message := some "boom", notes := "Conversion failed",
                 start_time := some "t0", end_time := some "t1",
                 retry_count := 2 }
             , { input_file := "/d/g.dfy", output_dir := "/o/converted/g",
                 status := "completed",
                 validation_score := some (4/5), retry_count := 0 } ]
    completed_files := {"/d/g.dfy"}
    progress_file := none }

/-- A world whose conversion succeeds with in-memory C code `""` while the
artifact read back from disk at scoring time is `/*@ x */`. -/
def worldDiskDiffers : PipelineWorld :=
  { convert_file := .ok { success := true, c_code := some "", test_code := none }
    write_test_file := .ok ()
    compile_and_test := .ok { success := true, compiles := true, runs := true }
    read_c_file := .ok "/*@ x */"
    read_dafny_file := .ok ""
    save_single_result := .ok () }

/-- A world whose transform stage raises `ValueError("boom")`. -/
def worldValueError : PipelineWorld :=
  { convert_file := .error { type_name := "ValueError", msg := "boom" }
    write_test_file := .ok ()
    compile_and_test := .ok { success := true, compiles := true, runs := true }
    read_c_file := .ok ""
    read_dafny_file := .ok ""
    save_single_result := .ok () }

/-- The same world except the transform stage raises `TypeError("boom")`. -/
def worldTypeError : PipelineWorld :=
  { worldValueError with
    convert_file := .error { type_name := "TypeError", msg := "boom" } }

/-- A typical gcc compile failure: `_compile_c_file` returns success `False`
with gcc's stripped stderr (which does not contain the word
"compilation") as the error. -/
def gccStderrFailure : CompileOutcome :=
  { success := false, error := some "test.c:1:5: error: expected declaration" }

/-- A compile timeout: `_compile_c_file` returns success `False` with the
message built at line 212. -/
def gccTimeoutFailure : CompileOutcome :=
  { success := false, error := some "Compilation timeout after 60 seconds" }

/-! ## Serialization round-trip (claim C2) -/

/-- Deserializing `asdict(item)` by keyword recovers the item, every field
intact. -/
theorem BatchItem.fromJson_toJson (it : BatchItem) :
    BatchItem.fromJson it.toJson = some it := by
  rcases it with ⟨inf, od, st, cs, vs, ts, em, sta, en, rc, nts⟩
  cases cs <;> cases vs <;> cases ts <;> cases em <;> cases sta <;> cases en
    <;> rfl

theorem parseItemList_map_toJson (l : List BatchItem) :
    BatchManager.parseItemList (l.map BatchItem.toJson) = some l := by
  induction l with
  | nil => rfl
  | cons hd tl ih =>
      simp [BatchManager.parseItemList, BatchItem.fromJson_toJson, ih]

theorem parseItems_progressDoc (name ts : String) (l : List BatchItem) :
    BatchManager.parseItems (progressDoc name ts l) = some l := by
  show BatchManager.parseItemList (l.map BatchItem.toJson) = some l
  exact parseItemList_map_toJson l

/-- C2: for every sequence of work items, saving the ledger and loading the
persisted document into a fresh ledger instance (same batch name, any output
directory) yields an identical ordered item sequence — every field of every
item (status, scores, testPassed, errorMessage, timestamps, retryCount,
notes) is preserved losslessly, and the completed index is re-derived from
exactly the completed items. -/
theorem save_progress_load_progress_roundtrip (bm : BatchManager)
    (now od : String) :
    (BatchManager.init bm.batch_name od
        ((bm.save_progress now).progress_file)).items = bm.items ∧
    (BatchManager.init bm.batch_name od
        ((bm.save_progress now).progress_file)).completed_files =
      ((bm.items.filter (fun it => it.status = "completed")).map
        (fun it => it.input_file)).toFinset := by
  refine ⟨?_, ?_⟩
  · simp [BatchManager.init, BatchManager.save_progress,
      BatchManager.load_progress, parseItems_progressDoc]
  · simp [BatchManager.init, BatchManager.save_progress,
      BatchManager.load_progress, parseItems_progressDoc]

/-! ## Reset of failed items (claim C9) -/

theorem resetItem_retry_count (it : BatchItem) :
    (BatchManager.resetItem it).retry_count = it.retry_count := by
  unfold BatchManager.resetItem
  split <;> rfl

theorem resetItem_not_failed (it : BatchItem) :
    ((BatchManager.resetItem it).status == "failed") = false := by
  unfold BatchManager.resetItem
  split <;> simp_all

theorem countP_pending_resetItem (l : List BatchItem) :
    (l.map BatchManager.resetItem).countP (fun it => it.status == "pending") =
      l.countP (fun it => it.status == "pending") +
      l.countP (fun it => it.status == "failed") := by
  induction l with
  | nil => rfl
  | cons hd tl ih =>
      by_cases h : hd.status = "failed"
      · simp [List.countP_cons, BatchManager.resetItem, h, ih]
        omega
      · by_cases h2 : hd.status = "pending"
        · simp [List.countP_cons, BatchManager.resetItem, h, h2, ih]
          omega
        · simp [List.countP_cons, BatchManager.resetItem, h, h2, ih]

/-- C9: `reset_failed_files` keeps the item count, leaves zero `failed`
items, turns exactly the previously failed items into `pending` ones (so the
`pending` count grows by the old `failed` count), never changes any item's
`retry_count`, maps every failed item to the same item with status
`"pending"` and error message, notes and both timestamps cleared, and leaves
every non-failed item completely unchanged. -/
theorem reset_failed_files_spec (bm : BatchManager) (now : String) :
    ((bm.reset_failed_files now).items.length = bm.items.length) ∧
    ((bm.reset_failed_files now).items.countP
        (fun it => it.status == "failed") = 0) ∧
    ((bm.reset_failed_files now).items.countP
        (fun it => it.status == "pending") =
      bm.items.countP (fun it => it.status == "pending") +
      bm.items.countP (fun it => it.status == "failed")) ∧
    (∀ i : ℕ, ((bm.reset_failed_files now).items[i]?).map
        (fun it => it.retry_count) =
      (bm.items[i]?).map (fun it => it.retry_count)) ∧
    (∀ i : ℕ, ∀ old : BatchItem, bm.items[i]? = some old →
      (old.status = "failed" →
        (bm.reset_failed_files now).items[i]? =
          some { old with
                 status := "pending", error_message := none,
                 notes := "", start_time := none, end_time := none }) ∧
      (old.status ≠ "failed" →
        (bm.reset_failed_files now).items[i]? = some old)) := by
  have hitems : (bm.reset_failed_files now).items =
      bm.items.map BatchManager.resetItem := rfl
  refine ⟨by simp [hitems], ?_, ?_, ?_, ?_⟩
  · rw [hitems, List.countP_map]
    apply List.countP_eq_zero.mpr
    intro it _
    simpa using resetItem_not_failed it
  · rw [hitems]
    exact countP_pending_resetItem bm.items
  · intro i
    rw [hitems, List.getElem?_map]
    cases bm.items[i]? with
    | none => rfl
    | some old => simp [resetItem_retry_count]
  · intro i old hold
    rw [hitems, List.getElem?_map, hold]
    constructor
    · intro hf
      simp [BatchManager.resetItem, hf]
    · intro hf
      simp [BatchManager.resetItem, hf]

/-- Witness for C9 at the concrete two-item ledger `bmMixed`: the failed item
at index 0 (retryCount 2) comes back pending with error/notes/timestamps
cleared and retryCount still 2, and the completed item at index 1 is
untouched. -/
theorem reset_failed_files_spec_witness :
    ((bmMixed.reset_failed_files "t2").items.countP
        (fun it => it.status == "failed") = 0) ∧
    ((bmMixed.reset_failed_files "t2").items.countP
        (fun it => it.status == "pending") =
      bmMixed.items.countP (fun it => it.status == "pending") +
      bmMixed.items.countP (fun it => it.status == "failed")) ∧
    ((bmMixed.reset_failed_files "t2").items[0]? =
      some { input_file := "/d/f.dfy"
             output_dir := "/o/converted/f"
             status := "pending"
             error_message := none
             notes := ""
             start_time := none
             end_time := none
             retry_count := 2 }) ∧
    ((bmMixed.reset_failed_files "t2").items[1]? = bmMixed.items[1]?) := by
  obtain ⟨-, h2, h3, -, h5⟩ := reset_failed_files_spec bmMixed "t2"
  refine ⟨h2, h3, ?_, ?_⟩
  · exact (h5 0 { input_file := "/d/f.dfy"
                  output_dir := "/o/converted/f"
                  status := "failed"
                  error_message := some "boom"
                  notes := "Conversion failed"
                  start_time := some "t0"
                  end_time := some "t1"
                  retry_count := 2 } rfl).1 rfl
  · exact (h5 1 { input_file := "/d/g.dfy"
                  output_dir := "/o/converted/g"
                  status := "completed"
                  validation_score := some (4/5)
                  retry_count := 0 } rfl).2 (by decide)

/-! ## Mutations on a path absent from the ledger (claim C10) -/

theorem markLoop_no_match (input_file : String) (upd : BatchItem → BatchItem)
    (l : List BatchItem) (h : ∀ it ∈ l, it.input_file ≠ input_file) :
    BatchManager.markLoop input_file upd l = (l, false) := by
  induction l with
  | nil => rfl
  | cons hd tl ih =>
      unfold BatchManager.markLoop
      rw [if_neg (h hd (List.mem_cons_self hd tl))]
      rw [ih fun it hmem => h it (List.mem_cons_of_mem hd hmem)]

/-- C10: when no ledger item carries the given source path, each of
`mark_running`, `mark_completed`, `mark_failed` and `mark_skipped` returns
without error, changes no item, leaves the completed index as it was, and
still rewrites the persisted progress file (with the unchanged items). -/
theorem mark_ops_unknown_path_noop (bm : BatchManager) (path now : String)
    (conversion_score validation_score : ℚ) (test_success : Bool)
    (error_message : Option String) (notes err reason : String)
    (h : ∀ it ∈ bm.items, it.input_file ≠ path) :
    bm.mark_running path now =
      { bm with
        progress_file := some (progressDoc bm.batch_name now bm.items) } ∧
    bm.mark_completed path conversion_score validation_score test_success
        error_message notes now =
      { bm with
        progress_file := some (progressDoc bm.batch_name now bm.items) } ∧
    bm.mark_failed path err notes now =
      { bm with
        progress_file := some (progressDoc bm.batch_name now bm.items) } ∧
    bm.mark_skipped path reason now =
      { bm with
        progress_file := some (progressDoc bm.batch_name now bm.items) } := by
  refine ⟨?_, ?_, ?_, ?_⟩ <;>
    simp [BatchManager.mark_running, BatchManager.mark_completed,
      BatchManager.mark_failed, BatchManager.mark_skipped,
      BatchManager.save_progress, markLoop_no_match _ _ _ h]

/-- Witness for C10 at the concrete ledger `bmMixed` and the absent path
`/d/zzz.dfy`. -/
theorem mark_ops_unknown_path_noop_witness :
    bmMixed.mark_running "/d/zzz.dfy" "t9" =
      { bmMixed with
        progress_file := some (progressDoc bmMixed.batch_name "t9" bmMixed.items) } ∧
    bmMixed.mark_completed "/d/zzz.dfy" 1 (1/2) true none "n" "t9" =
      { bmMixed with
        progress_file := some (progressDoc bmMixed.batch_name "t9" bmMixed.items) } ∧
    bmMixed.mark_failed "/d/zzz.dfy" "e" "n" "t9" =
      { bmMixed with
        progress_file := some (progressDoc bmMixed.batch_name "t9" bmMixed.items) } ∧
    bmMixed.mark_skipped "/d/zzz.dfy" "r" "t9" =
      { bmMixed with
        progress_file := some (progressDoc bmMixed.batch_name "t9" bmMixed.items) } :=
  mark_ops_unknown_path_noop bmMixed "/d/zzz.dfy" "t9" 1 (1/2) true none
    "n" "e" "r" (by decide)

/-! ## Scoring engine bounds (claims C3, C4, C5) -/

theorem check_function_signatures_nonneg (d c : String) :
    0 ≤ check_function_signatures_detailed d c := by
  unfold check_function_signatures_detailed
  dsimp only
  split_ifs with h1 h2
  · exact le_refl 0
  · exact le_refl 0
  · positivity

theorem check_function_signatures_le_one (d c : String) :
    check_function_signatures_detailed d c ≤ 1 := by
  unfold check_function_signatures_detailed
  dsimp only
  split_ifs with h1 h2
  · exact zero_le_one
  · exact zero_le_one
  · rw [div_le_one]
    · exact_mod_cast List.countP_le_length _
    · have hne : (dafnyMethodNames d).length ≠ 0 := by
        simpa [List.isEmpty_iff_length_eq_zero] using h1
      exact_mod_cast Nat.pos_of_ne_zero hne

theorem check_acsl_nonneg (d c : String) :
    0 ≤ check_acsl_annotations_detailed d c := by
  unfold check_acsl_annotations_detailed
  dsimp only
  split_ifs <;> positivity

/-- C5 counterexample: with one `requires` clause in the source and two
(unconverted, bare) `requires` clauses and no ACSL block in the target, the
annotation sub-score is 2.0 — the per-kind ratio is not clamped by
`min(..., 1.0)` and the sub-score exceeds 1.0. -/
theorem check_acsl_exceeds_one_cex :
    check_acsl_annotations_detailed "requires x;" "requires a; requires b;"
      = 2 ∧
    ¬(check_acsl_annotations_detailed "requires x;" "requires a; requires b;"
      ≤ 1) := by
  have hdr : countRequires "requires x;" = 1 := by decide
  have hde : countEnsures "requires x;" = 0 := by decide
  have hcr : countRequires "requires a; requires b;" = 2 := by decide
  have hca : countAcslBlocks "requires a; requires b;" = 0 := by decide
  have h : check_acsl_annotations_detailed "requires x;"
      "requires a; requires b;" = 2 := by
    unfold check_acsl_annotations_detailed
    rw [hdr, hde, hcr, hca]
    norm_num
  exact ⟨h, by rw [h]; norm_num⟩

/-- C5 (amended): for each contract kind with source count > 0 the per-kind
conversion ratio is the raw quotient target-count / source-count with no
clamp — when only one kind applies the sub-score is that unclamped quotient,
and when both apply it is the average of the two unclamped quotients — so the
annotation sub-score can exceed 1.0; it is forced back to at most 1.0 only
when the target contains at least one ACSL block, through the clamp fused
with the +0.1 bonus. -/
theorem check_acsl_ratio_unclamped (d c : String) :
    (0 < countAcslBlocks c → check_acsl_annotations_detailed d c ≤ 1) ∧
    (countAcslBlocks c = 0 →
      (0 < countRequires d → countEnsures d = 0 →
        check_acsl_annotations_detailed d c =
          (countRequires c : ℚ) / (countRequires d : ℚ)) ∧
      (countRequires d = 0 → 0 < countEnsures d →
        check_acsl_annotations_detailed d c =
          (countEnsures c : ℚ) / (countEnsures d : ℚ)) ∧
      (0 < countRequires d → 0 < countEnsures d →
        check_acsl_annotations_detailed d c =
          ((countRequires c : ℚ) / (countRequires d : ℚ) +
            (countEnsures c : ℚ) / (countEnsures d : ℚ)) / 2)) := by
  constructor
  · intro hca
    unfold check_acsl_annotations_detailed
    dsimp only
    split_ifs <;> norm_num
  · intro hca
    refine ⟨?_, ?_, ?_⟩
    · intro hdr hde
      unfold check_acsl_annotations_detailed
      rw [hde, hca]
      dsimp only
      split_ifs <;> first | rfl | (exfalso; omega)
    · intro hdr hde
      unfold check_acsl_annotations_detailed
      rw [hdr, hca]
      dsimp only
      split_ifs <;> first | rfl | (exfalso; omega)
    · intro hdr hde
      unfold check_acsl_annotations_detailed
      rw [hca]
      dsimp only
      split_ifs <;> first | rfl | (exfalso; omega)

/-- Witness for C5 (amended), every conjunct at concrete inputs: a target
with an ACSL block scores at most 1, and the unclamped ratio / averaged
ratios evaluate as stated on a requires-only, an ensures-only and a mixed
source. -/
theorem check_acsl_ratio_unclamped_witness :
    check_acsl_annotations_detailed "ensures z;" "/*@ y */" ≤ 1 ∧
    check_acsl_annotations_detailed "requires x;" "requires a; requires b;" =
      (countRequires "requires a; requires b;" : ℚ) /
        (countRequires "requires x;" : ℚ) ∧
    check_acsl_annotations_detailed "ensures z;" "ensures a; ensures b;" =
      (countEnsures "ensures a; ensures b;" : ℚ) /
        (countEnsures "ensures z;" : ℚ) ∧
    check_acsl_annotations_detailed "requires x; ensures y;"
        "requires a; requires b; ensures p;" =
      ((countRequires "requires a; requires b; ensures p;" : ℚ) /
          (countRequires "requires x; ensures y;" : ℚ) +
        (countEnsures "requires a; requires b; ensures p;" : ℚ) /
          (countEnsures "requires x; ensures y;" : ℚ)) / 2 :=
  ⟨(check_acsl_ratio_unclamped "ensures z;" "/*@ y */").1 (by decide),
   ((check_acsl_ratio_unclamped "requires x;" "requires a; requires b;").2
      (by decide)).1 (by decide) (by decide),
   ((check_acsl_ratio_unclamped "ensures z;" "ensures a; ensures b;").2
      (by decide)).2.1 (by decide) (by decide),
   ((check_acsl_ratio_unclamped "requires x; ensures y;"
      "requires a; requires b; ensures p;").2 (by decide)).2.2
      (by decide) (by decide)⟩

/-- C4 counterexample: a source declaring no methods yields structural
sub-score 0.0 (the "No Dafny methods found" early return), not the claimed
1.0 — even with a target that does define a function. -/
theorem check_function_signatures_no_methods_cex :
    dafnyMethodNames "" = [] ∧
    check_function_signatures_detailed "" "int foo(){}" = 0 ∧
    check_function_signatures_detailed "" "int foo(){}" ≠ 1 := by
  refine ⟨by decide, by decide, ?_⟩
  have h : check_function_signatures_detailed "" "int foo(){}" = 0 := by decide
  rw [h]
  norm_num

/-- C4 (amended): whenever the pattern matcher extracts zero method
declarations from the source, the structural-signature sub-score is 0.0
regardless of the target text. -/
theorem check_function_signatures_no_methods (d c : String)
    (h : dafnyMethodNames d = []) :
    check_function_signatures_detailed d c = 0 := by
  unfold check_function_signatures_detailed
  rw [h]
  rfl

/-- Witness for C4 (amended) at the empty source and a target defining
`foo`. -/
theorem check_function_signatures_no_methods_witness :
    check_function_signatures_detailed "" "int foo(){}" = 0 :=
  check_function_signatures_no_methods "" "int foo(){}" (by decide)

/-- C3 counterexample: with test sub-score 1 ∈ [0,1], the source
`requires x;` and the target `requires a; requires b;` (two bare clauses, no
ACSL block), the composite score is 0.25·0 + 0.35·2 + 0.40·1 = 1.1 > 1: the
composite is not bounded by 1. -/
theorem validate_conversion_score_exceeds_one_cex :
    ((0 : ℚ) ≤ 1 ∧ (1 : ℚ) ≤ 1) ∧
    (validate_conversion {} "requires x;" "requires a; requires b;" 1).score
      = 11/10 ∧
    ¬((validate_conversion {} "requires x;" "requires a; requires b;" 1).score
      ≤ 1) := by
  have hsig : check_function_signatures_detailed "requires x;"
      "requires a; requires b;" = 0 := by decide
  have hdr : countRequires "requires x;" = 1 := by decide
  have hde : countEnsures "requires x;" = 0 := by decide
  have hcr : countRequires "requires a; requires b;" = 2 := by decide
  have hca : countAcslBlocks "requires a; requires b;" = 0 := by decide
  have hacsl : check_acsl_annotations_detailed "requires x;"
      "requires a; requires b;" = 2 := by
    unfold check_acsl_annotations_detailed
    rw [hdr, hde, hcr, hca]
    norm_num
  have h : (validate_conversion {} "requires x;" "requires a; requires b;"
      1).score = 11/10 := by
    unfold validate_conversion
    rw [hsig, hacsl]
    norm_num
  exact ⟨⟨by norm_num, le_refl 1⟩, h, by rw [h]; norm_num⟩

/-- C3 (amended): with the default weights 0.25/0.35/0.40 and a supplied test
sub-score in [0,1], the composite score is nonnegative, the acceptability
flag is true exactly when the composite exceeds 0.5, and the composite is at
most 1 whenever the annotation sub-score is at most 1 (which the target can
violate, per the C5 analysis, only when it has more bare clauses of a kind
than the source and no ACSL block). -/
theorem validate_conversion_score_bounds (d c : String) (t : ℚ)
    (h0 : 0 ≤ t) (h1 : t ≤ 1) :
    0 ≤ (validate_conversion {} d c t).score ∧
    (check_acsl_annotations_detailed d c ≤ 1 →
      (validate_conversion {} d c t).score ≤ 1) ∧
    ((validate_conversion {} d c t).is_valid = true ↔
      1/2 < (validate_conversion {} d c t).score) := by
  have hs0 := check_function_signatures_nonneg d c
  have hs1 := check_function_signatures_le_one d c
  have ha0 := check_acsl_nonneg d c
  unfold validate_conversion
  refine ⟨?_, ?_, ?_⟩
  · dsimp only
    positivity
  · intro ha1
    dsimp only
    nlinarith
  · dsimp only
    rw [decide_eq_true_iff]

/-- Witness for C3 (amended) at source `method f(x)`, target `int f(){}`,
test score 1/2; the annotation sub-score there is 1 ≤ 1, so the composite is
in [0,1] and acceptability tracks the 0.5 threshold. -/
theorem validate_conversion_score_bounds_witness :
    0 ≤ (validate_conversion {} "method f(x)" "int f(){}" (1/2)).score ∧
    (validate_conversion {} "method f(x)" "int f(){}" (1/2)).score ≤ 1 ∧
    ((validate_conversion {} "method f(x)" "int f(){}" (1/2)).is_valid = true ↔
      1/2 < (validate_conversion {} "method f(x)" "int f(){}" (1/2)).score) :=
  ⟨(validate_conversion_score_bounds "method f(x)" "int f(){}" (1/2)
      (by norm_num) (by norm_num)).1,
   (validate_conversion_score_bounds "method f(x)" "int f(){}" (1/2)
      (by norm_num) (by norm_num)).2.1 (by decide),
   (validate_conversion_score_bounds "method f(x)" "int f(){}" (1/2)
      (by norm_num) (by norm_num)).2.2⟩

/-! ## Test-outcome mapping (claim C6) -/

/-- C6 counterexample: a run whose compilation failed with gcc's usual
stderr — which does not contain the word "compilation" — is mapped to test
sub-score 0.5, not the claimed 0.0. -/
theorem test_score_compile_failure_half_cex :
    (GCCTester.compile_and_test gccStderrFailure { success := false }).compiles
      = false ∧
    test_score_of (GCCTester.compile_and_test gccStderrFailure
      { success := false }) = 1/2 ∧
    test_score_of (GCCTester.compile_and_test gccStderrFailure
      { success := false }) ≠ 0 := by
  refine ⟨rfl, rfl, ?_⟩
  have h : test_score_of (GCCTester.compile_and_test gccStderrFailure
      { success := false }) = 1/2 := rfl
  rw [h]
  norm_num

/-- C6 (amended): on every compile failure the tester reports
`compiles = false` and the test sub-score is never 1.0, but it is 0.0 exactly
when the reported error text is nonempty and contains the substring
"compilation" case-insensitively (true for the tester's own timeout and
exception messages, false for typical gcc stderr, which maps to 0.5). -/
theorem test_score_compile_failure_sniff (comp : CompileOutcome)
    (ex : ExecOutcome) (h : comp.success = false) :
    (GCCTester.compile_and_test comp ex).compiles = false ∧
    test_score_of (GCCTester.compile_and_test comp ex) ≠ 1 ∧
    (test_score_of (GCCTester.compile_and_test comp ex) = 0 ↔
      compilationSniff comp.error = true) := by
  have htr : GCCTester.compile_and_test comp ex =
      { success := false, compiles := false, runs := false,
        error := comp.error } := by
    unfold GCCTester.compile_and_test
    rw [h]
    rfl
  rw [htr]
  by_cases hs : compilationSniff comp.error = true <;>
    simp [test_score_of, hs]

/-- Witness for C6 (amended) at the concrete compile-timeout outcome, whose
message does contain "Compilation": there the sub-score is 0. -/
theorem test_score_compile_failure_sniff_witness :
    (GCCTester.compile_and_test gccTimeoutFailure { success := false }).compiles
      = false ∧
    test_score_of (GCCTester.compile_and_test gccTimeoutFailure
      { success := false }) ≠ 1 ∧
    test_score_of (GCCTester.compile_and_test gccTimeoutFailure
      { success := false }) = 0 :=
  ⟨(test_score_compile_failure_sniff gccTimeoutFailure { success := false }
      rfl).1,
   (test_score_compile_failure_sniff gccTimeoutFailure { success := false }
      rfl).2.1,
   (test_score_compile_failure_sniff gccTimeoutFailure { success := false }
      rfl).2.2.mpr (by decide)⟩

/-! ## The scored target text (claim C7) -/

/-- C7: in a run where the persisted artifact read back from disk
(`/*@ x */`) differs from the in-memory transform output (`""`), the
validation outcome is computed from the in-memory copy — it is unchanged if
the on-disk content is replaced by anything else, and the two candidate
inputs would have scored differently (7/20 vs 7/25), so the scored input is
the in-memory copy, not the read-back artifact. -/
theorem convert_single_file_scores_in_memory_code :
    ((convert_single_file {} false {} "/d/a.dfy" "/out" none
        worldDiskDiffers).validation = some (validate_conversion {} "" "" 0)) ∧
    ((convert_single_file {} false {} "/d/a.dfy" "/out" none
        { worldDiskDiffers with read_c_file := .ok "other disk content"
        }).validation = some (validate_conversion {} "" "" 0)) ∧
    ((validate_conversion {} "" "" 0).score = 7/20) ∧
    ((validate_conversion {} "" "/*@ x */" 0).score = 7/25) ∧
    ((7 : ℚ)/20 ≠ 7/25) := by
  refine ⟨rfl, rfl, ?_, ?_, by norm_num⟩
  · have hsig : check_function_signatures_detailed "" "" = 0 := by decide
    have hdr : countRequires "" = 0 := by decide
    have hde : countEnsures "" = 0 := by decide
    have hca : countAcslBlocks "" = 0 := by decide
    have hacsl : check_acsl_annotations_detailed "" "" = 1 := by
      unfold check_acsl_annotations_detailed
      rw [hdr, hde, hca]
      norm_num
    unfold validate_conversion
    rw [hsig, hacsl]
    norm_num
  · have hsig : check_function_signatures_detailed "" "/*@ x */" = 0 := by
      decide
    have hdr : countRequires "" = 0 := by decide
    have hde : countEnsures "" = 0 := by decide
    have hca : countAcslBlocks "/*@ x */" = 1 := by decide
    have hacsl : check_acsl_annotations_detailed "" "/*@ x */" = 4/5 := by
      unfold check_acsl_annotations_detailed
      rw [hdr, hde, hca]
      norm_num
    unfold validate_conversion
    rw [hsig, hacsl]
    norm_num

/-! ## The orchestrator's exception boundary (claim C8) -/

/-- C8 (amended): whenever any pipeline stage raises, `convert_single_file`
does not propagate the exception; it returns a failed outcome whose
`error_message` is exactly the exception's message `str(e)` — and nothing
else: the outcome is fully determined by the message alone. -/
theorem convert_single_file_catches_exceptions (cfg : ConverterConfig)
    (sr : Bool) (vcfg : TestConfig) (df od : String) (td : Option String)
    (w : PipelineWorld) (e : PyExc)
    (h : pipelineBody cfg sr vcfg df od td w = .error e) :
    convert_single_file cfg sr vcfg df od td w =
      { conversion := { success := false, error_message := some e.msg } } := by
  unfold convert_single_file
  rw [h]

/-- Witness for C8 (amended) at the world whose transform raises
`ValueError("boom")`. -/
theorem convert_single_file_catches_exceptions_witness :
    convert_single_file {} false {} "f" "o" none worldValueError =
      { conversion := { success := false, error_message := some "boom" } } :=
  convert_single_file_catches_exceptions {} false {} "f" "o" none
    worldValueError { type_name := "ValueError", msg := "boom" } rfl

/-- C8 counterexample: two runs whose raised exceptions differ only in type
name (`ValueError` vs `TypeError`, same message "boom") produce identical
outcomes, so the returned `PipelineOutcome` cannot carry the exception's
type name — it carries only the message. -/
theorem convert_single_file_drops_exception_type_cex :
    convert_single_file {} false {} "f" "o" none worldValueError =
      convert_single_file {} false {} "f" "o" none worldTypeError ∧
    (convert_single_file {} false {} "f" "o" none
        worldValueError).conversion.error_message = some "boom" ∧
    (convert_single_file {} false {} "f" "o" none
        worldTypeError).conversion.error_message = some "boom" :=
  ⟨rfl, rfl, rfl⟩

/-! ## Re-adding an already completed path (claim C1) -/

/-- C1: re-adding `/data/a.src` to the resumed ledger that already holds it
as completed leaves TWO entries for the path, not one: the original entry is
untouched (its 0.9 validation score intact), and a second entry is appended
with status "completed" and no scores.  `add_files` appends unconditionally —
nothing checks whether the path is already among the items, even though its
own log message says "already completed, skipping". -/
theorem add_files_readds_completed_path_twice :
    ((bmResumed.add_files "t1" ["/data/a.src"]).items.length = 2) ∧
    ((bmResumed.add_files "t1" ["/data/a.src"]).items.map
        (fun it => it.input_file) = ["/data/a.src", "/data/a.src"]) ∧
    ((bmResumed.add_files "t1" ["/data/a.src"]).items.map
        (fun it => it.status) = ["completed", "completed"]) ∧
    ((bmResumed.add_files "t1" ["/data/a.src"]).items[0]? =
      bmResumed.items[0]?) ∧
    (((bmResumed.add_files "t1" ["/data/a.src"]).items[1]?).map
        (fun it => it.validation_score) = some none) ∧
    ((bmResumed.items[0]?).map (fun it => it.validation_score) =
      some (some (9/10))) :=
  ⟨by decide, by decide, by decide, rfl, by decide, rfl⟩

end DafnyBench2C
